import Mathlib

/-!
Verification of the workout-statistics calculator (`src/main.py`,
`src/homework.py`, `src/exceptions/errors.py`).

The program reads a package `(workout_type, data)`, validates it, dispatches
to one of three training classes (Running, SportsWalking, Swimming), and
computes distance, mean speed and spent calories, which are then rendered
into a fixed-template report string.

Embedding choices:
* Python numeric values (int/float) are modelled as exact rationals `ℚ`;
  every numeric literal of the source (0.65, 1.38, 1.79, 0.035, 0.029,
  0.278, 1.1, ...) is exactly representable in `ℚ`.
* A sensor value is a `PyVal`: either a number or a non-numeric object
  (`isinstance(x, (int, float))` is false).
* The `data` argument of `read_package` is a `PyData`: a Python list, a
  non-list iterable sequence (e.g. a tuple), or a non-iterable object.
* Failures are explicit: `Except PyError Training`.  `PyError` covers the
  two exception classes of `src/exceptions/errors.py` plus Python's
  built-in `TypeError`, which `read_package` can hit in two places: when
  `all(map(...))` iterates a non-iterable `data`, and when the
  `workout_data[workout_type](*data)` call unpacks a list whose length does
  not match the constructor's arity.
* Division is total on `ℚ` (`x / 0 = 0`); a second, `Option`-valued
  evaluator with checked division models Python's `ZeroDivisionError`
  where a claim is about division by zero.
-/

namespace HwPythonOop

/-- A Python value as seen by `read_package`'s element check: either a
number (`int` or `float`, modelled as `ℚ`) or any non-numeric object. -/
inductive PyVal where
  | num (q : ℚ)
  | nonNum
deriving DecidableEq

/-- The result of `isinstance(x, (int, float))` for an element `x`. -/
def PyVal.isNum : PyVal → Bool
  | .num _ => true
  | .nonNum => false

/-- Numeric payload of a `PyVal`; only applied after `isNum` has been
checked, so the `nonNum` branch is never reached by a validated reading. -/
def PyVal.toQ : PyVal → ℚ
  | .num q => q
  | .nonNum => 0

/-- The `data` argument of `read_package`: a Python `list`, a non-list
iterable sequence such as a tuple, or a non-iterable object. -/
inductive PyData where
  | list (xs : List PyVal)
  | tuple (xs : List PyVal)
  | nonIter
deriving DecidableEq

/-- Elements of an iterable `PyData` (empty for a non-iterable). -/
def PyData.elems : PyData → List PyVal
  | .list xs => xs
  | .tuple xs => xs
  | .nonIter => []

/-- `isinstance(data, list)`. -/
def PyData.isList : PyData → Bool
  | .list _ => true
  | _ => false

/-- The ways `read_package` can fail.  `unknownActivityType` is
`ExceptionWorkoutTypeError`, `invalidReading` is
`ExceptionWorkoutDataError` (src/exceptions/errors.py), and `pyTypeError`
is Python's built-in `TypeError` (iterating a non-iterable `data`, or an
argument-count mismatch in the `workout_data[workout_type](*data)` call). -/
inductive PyError where
  | unknownActivityType
  | invalidReading
  | pyTypeError
deriving DecidableEq

/-- A constructed training record: one of the three concrete subclasses of
`Training`.  The abstract base class itself is never instantiated by
`read_package`, so it has no constructor here.  Fields follow the Python
`__init__` signatures. -/
inductive Training where
  | running (action duration weight : ℚ)
  | sportsWalking (action duration weight height : ℚ)
  | swimming (action duration weight length_pool count_pool : ℚ)
deriving DecidableEq

/-- `self.action`. -/
def Training.action : Training → ℚ
  | .running a _ _ => a
  | .sportsWalking a _ _ _ => a
  | .swimming a _ _ _ _ => a

/-- `self.duration`. -/
def Training.duration : Training → ℚ
  | .running _ d _ => d
  | .sportsWalking _ d _ _ => d
  | .swimming _ d _ _ _ => d

/-- `self.weight`. -/
def Training.weight : Training → ℚ
  | .running _ _ w => w
  | .sportsWalking _ _ w _ => w
  | .swimming _ _ w _ _ => w

/-- The report record built by `show_training_info`
(`InfoMessage.__init__` fields). -/
structure InfoMessage where
  training_type : String
  duration : ℚ
  distance : ℚ
  speed : ℚ
  calories : ℚ
deriving DecidableEq

/-- Round a rational to the nearest integer, halves away from zero is not
what Python does, but the two source files share one format string, so any
fixed rounding models both identically; we use floor of `q + 1/2`. -/
def roundQ (q : ℚ) : ℤ :=
  ⌊q + 1 / 2⌋

/-- Zero-pad a natural number below 1000 to three digits. -/
def natPad3 (n : ℕ) : String :=
  if n < 10 then "00" ++ toString n
  else if n < 100 then "0" ++ toString n
  else toString n

/-- Model of the Python fixed-point format `f"{x:.3f}"` used by both
`get_message` implementations. -/
def formatFixed3 (q : ℚ) : String :=
  let n : ℤ := roundQ (q * 1000)
  (if n < 0 then "-" else "")
    ++ toString (n.natAbs / 1000) ++ "." ++ natPad3 (n.natAbs % 1000)

/-- Checked division: `some (a / b)` when `b ≠ 0`, `none` models Python's
`ZeroDivisionError`. -/
def div? (a b : ℚ) : Option ℚ :=
  if b = 0 then none else some (a / b)

namespace Main

/-- `Training.LEN_STEP` (src/main.py line 39). -/
def Training.LEN_STEP : ℚ := 0.65

/-- `Training.M_IN_KM` (src/main.py line 40). -/
def Training.M_IN_KM : ℚ := 1000

/-- `Training.MIN_IN_H` (src/main.py line 41). -/
def Training.MIN_IN_H : ℚ := 60

/-- `Running.SPEED_MULT` (src/main.py line 81). -/
def Running.SPEED_MULT : ℚ := 18

/-- `Running.SPEED_SHIFT` (src/main.py line 82). -/
def Running.SPEED_SHIFT : ℚ := 1.79

/-- `SportsWalking.WEIGHT_MULT_1` (src/main.py line 102). -/
def SportsWalking.WEIGHT_MULT_1 : ℚ := 0.035

/-- `SportsWalking.WEIGHT_MULT_2` (src/main.py line 103). -/
def SportsWalking.WEIGHT_MULT_2 : ℚ := 0.029

/-- `SportsWalking.KMH_IN_MSEC` (src/main.py line 104). -/
def SportsWalking.KMH_IN_MSEC : ℚ := 0.278

/-- `SportsWalking.CM_IN_M` (src/main.py line 105). -/
def SportsWalking.CM_IN_M : ℚ := 100

/-- `Swimming.LEN_STEP` (src/main.py line 134), overriding the base class. -/
def Swimming.LEN_STEP : ℚ := 1.38

/-- `Swimming.SPEED_SHIFT` (src/main.py line 135). -/
def Swimming.SPEED_SHIFT : ℚ := 1.1

/-- `Swimming.SPEED_MULT` (src/main.py line 136). -/
def Swimming.SPEED_MULT : ℚ := 2

/-- `self.LEN_STEP` as resolved by Python attribute lookup on the
instance's class: `Swimming` overrides the base value, `Running` and
`SportsWalking` inherit it. -/
def lenStep : Training → ℚ
  | .swimming _ _ _ _ _ => Swimming.LEN_STEP
  | _ => Training.LEN_STEP

/-- `Training.get_distance` (src/main.py lines 53-55):
`self.action * self.LEN_STEP / self.M_IN_KM`, inherited unchanged by all
three subclasses. -/
def get_distance (t : Training) : ℚ :=
  t.action * lenStep t / Training.M_IN_KM

/-- `get_mean_speed`: the base method (src/main.py lines 57-59) returns
`self.get_distance() / self.duration`; `Swimming` overrides it (lines
150-154) with `self.length_pool * self.count_pool / self.M_IN_KM /
self.duration`. -/
def get_mean_speed : Training → ℚ
  | .swimming _ d _ lp cp => lp * cp / Training.M_IN_KM / d
  | t => get_distance t / t.duration

/-- `get_spent_calories` as overridden by each subclass
(src/main.py lines 84-96, 117-128, 156-163). -/
def get_spent_calories : Training → ℚ
  | .running a d w =>
      (Running.SPEED_MULT * get_mean_speed (.running a d w)
          + Running.SPEED_SHIFT)
        * w / Training.M_IN_KM * d * Training.MIN_IN_H
  | .sportsWalking a d w h =>
      let speed_height_ratio : ℚ :=
        (get_mean_speed (.sportsWalking a d w h) * SportsWalking.KMH_IN_MSEC)
          ^ 2 / (h / SportsWalking.CM_IN_M)
      let speed_weight_mult : ℚ :=
        SportsWalking.WEIGHT_MULT_1 * w
          + speed_height_ratio * SportsWalking.WEIGHT_MULT_2 * w
      speed_weight_mult * d * Training.MIN_IN_H
  | .swimming a d w lp cp =>
      (get_mean_speed (.swimming a d w lp cp) + Swimming.SPEED_SHIFT)
        * Swimming.SPEED_MULT * w * d

/-- `self.__class__.__name__`, the string passed as `training_type` by
`show_training_info`. -/
def className : Training → String
  | .running _ _ _ => "Running"
  | .sportsWalking _ _ _ _ => "SportsWalking"
  | .swimming _ _ _ _ _ => "Swimming"

/-- `Training.show_training_info` (src/main.py lines 67-75). -/
def show_training_info (t : Training) : InfoMessage :=
  { training_type := className t
    duration := t.duration
    distance := get_distance t
    speed := get_mean_speed t
    calories := get_spent_calories t }

/-- `InfoMessage.get_message` (src/main.py lines 23-33). -/
def get_message (m : InfoMessage) : String :=
  "Тип тренировки: " ++ m.training_type
    ++ "; Длительность: " ++ formatFixed3 m.duration
    ++ " ч.; Дистанция: " ++ formatFixed3 m.distance
    ++ " км; Ср. скорость: " ++ formatFixed3 m.speed
    ++ " км/ч; Потрачено ккал: " ++ formatFixed3 m.calories ++ "."

/-- The call `workout_data[workout_type](*data)` (src/main.py line 181):
Python unpacks the validated list against the chosen class's `__init__`;
`Running` takes 3 positional arguments, `SportsWalking` 4, `Swimming` 5,
and any other length raises a built-in `TypeError`. -/
def construct (workout_type : String) (qs : List ℚ) : Except PyError Training :=
  match workout_type, qs with
  | "RUN", [a, d, w] => .ok (.running a d w)
  | "WLK", [a, d, w, h] => .ok (.sportsWalking a d w h)
  | "SWM", [a, d, w, lp, cp] => .ok (.swimming a d w lp cp)
  | _, _ => .error .pyTypeError

/-- `read_package` (src/main.py lines 166-181).  The registry keys are
"RUN", "WLK", "SWM"; an unknown key raises `ExceptionWorkoutTypeError`
before `data` is touched.  Then `check_data = all(map(lambda x:
isinstance(x, (int, float)), data))` runs: on a non-iterable `data` this
raises a built-in `TypeError`.  Then `not isinstance(data, list) or
len(data) < 3 or not check_data` raises `ExceptionWorkoutDataError`,
and finally the record is constructed by argument unpacking. -/
def read_package (workout_type : String) (data : PyData) : Except PyError Training :=
  if workout_type ∉ (["RUN", "WLK", "SWM"] : List String) then
    .error .unknownActivityType
  else
    match data with
    | .nonIter => .error .pyTypeError
    | .tuple _ => .error .invalidReading
    | .list xs =>
        if xs.length < 3 ∨ ¬ xs.all PyVal.isNum then .error .invalidReading
        else construct workout_type (xs.map PyVal.toQ)

/-- `Training.get_distance` with Python's division semantics made
explicit: the only division is by `M_IN_KM = 1000`, which never fails. -/
def get_distanceChecked (t : Training) : Option ℚ :=
  div? (t.action * lenStep t) Training.M_IN_KM

/-- `get_mean_speed` with checked division: the base method divides by
`self.duration`, the `Swimming` override by `M_IN_KM` and then by
`self.duration`. -/
def get_mean_speedChecked : Training → Option ℚ
  | .swimming _ d _ lp cp => do
      let x ← div? (lp * cp) Training.M_IN_KM
      div? x d
  | t => do
      let dist ← get_distanceChecked t
      div? dist t.duration

/-- `get_spent_calories` with checked division, mirroring every division
of the source: `Running` divides by `M_IN_KM`; `SportsWalking` divides
`self.height` by `CM_IN_M` and then divides the squared speed by that
quotient (src/main.py lines 119-121), which is a division by zero exactly
when `height = 0`; `Swimming` performs no division of its own. -/
def get_spent_caloriesChecked : Training → Option ℚ
  | .running a d w => do
      let v ← get_mean_speedChecked (.running a d w)
      let x ← div? ((Running.SPEED_MULT * v + Running.SPEED_SHIFT) * w)
        Training.M_IN_KM
      pure (x * d * Training.MIN_IN_H)
  | .sportsWalking a d w h => do
      let v ← get_mean_speedChecked (.sportsWalking a d w h)
      let hm ← div? h SportsWalking.CM_IN_M
      let ratio ← div? ((v * SportsWalking.KMH_IN_MSEC) ^ 2) hm
      pure ((SportsWalking.WEIGHT_MULT_1 * w
          + ratio * SportsWalking.WEIGHT_MULT_2 * w)
        * d * Training.MIN_IN_H)
  | .swimming a d w lp cp => do
      let v ← get_mean_speedChecked (.swimming a d w lp cp)
      pure ((v + Swimming.SPEED_SHIFT) * Swimming.SPEED_MULT * w * d)

end Main

namespace Homework

/-- `Training.LEN_STEP` (src/homework.py line 31). -/
def Training.LEN_STEP : ℚ := 0.65

/-- `Training.M_IN_KM` (src/homework.py line 32). -/
def Training.M_IN_KM : ℚ := 1000

/-- `Training.MIN_IN_H` (src/homework.py line 33). -/
def Training.MIN_IN_H : ℚ := 60

/-- `Running.SPEED_MULT` (src/homework.py line 67). -/
def Running.SPEED_MULT : ℚ := 18

/-- `Running.SPEED_SHIFT` (src/homework.py line 68). -/
def Running.SPEED_SHIFT : ℚ := 1.79

/-- `SportsWalking.WEIGHT_MULT_1` (src/homework.py line 85). -/
def SportsWalking.WEIGHT_MULT_1 : ℚ := 0.035

/-- `SportsWalking.WEIGHT_MULT_2` (src/homework.py line 86). -/
def SportsWalking.WEIGHT_MULT_2 : ℚ := 0.029

/-- `SportsWalking.KMH_IN_MSEC` (src/homework.py line 87). -/
def SportsWalking.KMH_IN_MSEC : ℚ := 0.278

/-- `SportsWalking.CM_IN_M` (src/homework.py line 88). -/
def SportsWalking.CM_IN_M : ℚ := 100

/-- `Swimming.LEN_STEP` (src/homework.py line 110), overriding the base. -/
def Swimming.LEN_STEP : ℚ := 1.38

/-- `Swimming.SPEED_SHIFT` (src/homework.py line 111). -/
def Swimming.SPEED_SHIFT : ℚ := 1.1

/-- `Swimming.SPEED_MULT` (src/homework.py line 112). -/
def Swimming.SPEED_MULT : ℚ := 2

/-- `self.LEN_STEP` under Python attribute lookup: the `Swimming`
dataclass overrides the class variable, the other two inherit it. -/
def lenStep : Training → ℚ
  | .swimming _ _ _ _ _ => Swimming.LEN_STEP
  | _ => Training.LEN_STEP

/-- `Training.get_distance` (src/homework.py lines 39-41). -/
def get_distance (t : Training) : ℚ :=
  t.action * lenStep t / Training.M_IN_KM

/-- `get_mean_speed`: the base method (src/homework.py lines 43-45),
overridden by `Swimming` (lines 117-121). -/
def get_mean_speed : Training → ℚ
  | .swimming _ d _ lp cp => lp * cp / Training.M_IN_KM / d
  | t => get_distance t / t.duration

/-- `get_spent_calories` as overridden by each dataclass
(src/homework.py lines 70-79, 92-104, 123-128). -/
def get_spent_calories : Training → ℚ
  | .running a d w =>
      (Running.SPEED_MULT * get_mean_speed (.running a d w)
          + Running.SPEED_SHIFT)
        * w / Training.M_IN_KM * d * Training.MIN_IN_H
  | .sportsWalking a d w h =>
      let speed_height_ratio : ℚ :=
        (get_mean_speed (.sportsWalking a d w h) * SportsWalking.KMH_IN_MSEC)
          ^ 2 / (h / SportsWalking.CM_IN_M)
      let speed_weight_mult : ℚ :=
        SportsWalking.WEIGHT_MULT_1 * w
          + speed_height_ratio * SportsWalking.WEIGHT_MULT_2 * w
      speed_weight_mult * d * Training.MIN_IN_H
  | .swimming a d w lp cp =>
      (get_mean_speed (.swimming a d w lp cp) + Swimming.SPEED_SHIFT)
        * Swimming.SPEED_MULT * w * d

/-- `self.__class__.__name__` for the three dataclasses. -/
def className : Training → String
  | .running _ _ _ => "Running"
  | .sportsWalking _ _ _ _ => "SportsWalking"
  | .swimming _ _ _ _ _ => "Swimming"

/-- `Training.show_training_info` (src/homework.py lines 53-61). -/
def show_training_info (t : Training) : InfoMessage :=
  { training_type := className t
    duration := t.duration
    distance := get_distance t
    speed := get_mean_speed t
    calories := get_spent_calories t }

/-- `InfoMessage.get_message` (src/homework.py lines 15-25); same
template as in src/main.py, written with single quotes there. -/
def get_message (m : InfoMessage) : String :=
  "Тип тренировки: " ++ m.training_type
    ++ "; Длительность: " ++ formatFixed3 m.duration
    ++ " ч.; Дистанция: " ++ formatFixed3 m.distance
    ++ " км; Ср. скорость: " ++ formatFixed3 m.speed
    ++ " км/ч; Потрачено ккал: " ++ formatFixed3 m.calories ++ "."

/-- The call `workout_data[workout_type](*data)` (src/homework.py line
146) under Python argument unpacking against the dataclass fields. -/
def construct (workout_type : String) (qs : List ℚ) : Except PyError Training :=
  match workout_type, qs with
  | "RUN", [a, d, w] => .ok (.running a d w)
  | "WLK", [a, d, w, h] => .ok (.sportsWalking a d w h)
  | "SWM", [a, d, w, lp, cp] => .ok (.swimming a d w lp cp)
  | _, _ => .error .pyTypeError

/-- `read_package` (src/homework.py lines 131-146); same checks in the
same order as src/main.py. -/
def read_package (workout_type : String) (data : PyData) : Except PyError Training :=
  if workout_type ∉ (["RUN", "WLK", "SWM"] : List String) then
    .error .unknownActivityType
  else
    match data with
    | .nonIter => .error .pyTypeError
    | .tuple _ => .error .invalidReading
    | .list xs =>
        if xs.length < 3 ∨ ¬ xs.all PyVal.isNum then .error .invalidReading
        else construct workout_type (xs.map PyVal.toQ)

end Homework

/-- All numeric `__init__` fields of a record are non-negative; this is
the shape of reading the spec's "inputs are non-negative" premise takes
after construction. -/
def fieldsNonneg : Training → Prop
  | .running a d w => 0 ≤ a ∧ 0 ≤ d ∧ 0 ≤ w
  | .sportsWalking a d w h => 0 ≤ a ∧ 0 ≤ d ∧ 0 ≤ w ∧ 0 ≤ h
  | .swimming a d w lp cp => 0 ≤ a ∧ 0 ≤ d ∧ 0 ≤ w ∧ 0 ≤ lp ∧ 0 ≤ cp

/-- Number of positional `__init__` parameters of the class registered
for each known workout code: `Running` takes 3, `SportsWalking` 4,
`Swimming` 5. -/
def expectedArity : String → ℕ
  | "RUN" => 3
  | "WLK" => 4
  | "SWM" => 5
  | _ => 0

/-- The constructor-unpacking step never raises
`ExceptionWorkoutDataError`: past the validation `if`, the only failure
left is Python's built-in `TypeError`. -/
theorem construct_ne_invalidReading (wt : String) (qs : List ℚ) :
    Main.construct wt qs ≠ Except.error PyError.invalidReading := by
  unfold Main.construct
  split <;> simp

/-- `Running(*data)` with an argument count other than 3 raises a
built-in `TypeError`. -/
theorem construct_run_arity : ∀ (qs : List ℚ), qs.length ≠ 3 →
    Main.construct "RUN" qs = Except.error PyError.pyTypeError
  | [], _ => rfl
  | [_], _ => rfl
  | [_, _], _ => rfl
  | [_, _, _], h => absurd rfl h
  | _ :: _ :: _ :: _ :: _, _ => rfl

/-- `SportsWalking(*data)` with an argument count other than 4 raises a
built-in `TypeError`. -/
theorem construct_wlk_arity : ∀ (qs : List ℚ), qs.length ≠ 4 →
    Main.construct "WLK" qs = Except.error PyError.pyTypeError
  | [], _ => rfl
  | [_], _ => rfl
  | [_, _], _ => rfl
  | [_, _, _], _ => rfl
  | [_, _, _, _], h => absurd rfl h
  | _ :: _ :: _ :: _ :: _ :: _, _ => rfl

/-- `Swimming(*data)` with an argument count other than 5 raises a
built-in `TypeError`. -/
theorem construct_swm_arity : ∀ (qs : List ℚ), qs.length ≠ 5 →
    Main.construct "SWM" qs = Except.error PyError.pyTypeError
  | [], _ => rfl
  | [_], _ => rfl
  | [_, _], _ => rfl
  | [_, _, _], _ => rfl
  | [_, _, _, _], _ => rfl
  | [_, _, _, _, _], h => absurd rfl h
  | _ :: _ :: _ :: _ :: _ :: _ :: _, _ => rfl

/-- C1 counterexample: for the swimming record built from the
repository's own test package SWM [720, 1, 80, 25, 40], the computed
distance is 0.9936 km (`action * 1.38 / 1000`, with `action = 720`), not
`pool_length * lap_count * 1.38 / 1000 = 1.38` km as the claim states:
`Swimming` inherits `get_distance` from the base class unchanged, and the
base formula reads `self.action`, not the pool fields. -/
theorem C1_counterexample :
    Main.get_distance (Training.swimming 720 1 80 25 40) = 0.9936 ∧
      Main.get_distance (Training.swimming 720 1 80 25 40)
        ≠ 25 * 40 * 1.38 / 1000 := by
  constructor <;>
    norm_num [Main.get_distance, Main.lenStep, Main.Swimming.LEN_STEP,
      Main.Training.M_IN_KM, Training.action]

/-- C1 (amended): for every swimming workout record, the computed
distance in km equals `action * 1.38 / 1000`, where `action` is the raw
first reading element (the stroke count), not
`pool_length * lap_count`. -/
theorem C1_swimming_distance (a d w lp cp : ℚ) :
    Main.get_distance (Training.swimming a d w lp cp) = a * 1.38 / 1000 := by
  norm_num [Main.get_distance, Main.lenStep, Main.Swimming.LEN_STEP,
    Main.Training.M_IN_KM, Training.action]

/-- C2 counterexample: for the RUN record built from reading
[15000, 1, 75], the computed calories are 797.805, which is not
approximately 779.886 (it exceeds the claimed value by more than 17). -/
theorem C2_counterexample :
    Main.get_spent_calories (Training.running 15000 1 75) ≠ 779.886 ∧
      17 < Main.get_spent_calories (Training.running 15000 1 75) - 779.886 := by
  constructor <;>
    norm_num [Main.get_spent_calories, Main.get_mean_speed, Main.get_distance,
      Main.lenStep, Main.Training.LEN_STEP, Main.Training.M_IN_KM,
      Main.Training.MIN_IN_H, Main.Running.SPEED_MULT, Main.Running.SPEED_SHIFT,
      Training.action, Training.duration]

/-- C2 (amended): for activity code RUN with reading [15000, 1, 75],
`read_package` yields the running record, the computed distance is
exactly 9.75 km, the mean speed is exactly 9.75 km/h, and the calories
burned are exactly 797.805 (in exact arithmetic), not 779.886. -/
theorem C2_run_values :
    Main.read_package "RUN"
        (PyData.list [PyVal.num 15000, PyVal.num 1, PyVal.num 75])
        = Except.ok (Training.running 15000 1 75) ∧
      Main.get_distance (Training.running 15000 1 75) = 9.75 ∧
      Main.get_mean_speed (Training.running 15000 1 75) = 9.75 ∧
      Main.get_spent_calories (Training.running 15000 1 75) = 797.805 := by
  refine ⟨rfl, ?_, ?_, ?_⟩ <;>
    norm_num [Main.get_spent_calories, Main.get_mean_speed, Main.get_distance,
      Main.lenStep, Main.Training.LEN_STEP, Main.Training.M_IN_KM,
      Main.Training.MIN_IN_H, Main.Running.SPEED_MULT, Main.Running.SPEED_SHIFT,
      Training.action, Training.duration]

/-- C3 counterexample: for the WLK record built from reading
[9000, 1, 75, 180], the computed calories are 349.251747525, which is not
approximately 157.02 (it exceeds the claimed value by more than 192). -/
theorem C3_counterexample :
    Main.get_spent_calories (Training.sportsWalking 9000 1 75 180) ≠ 157.02 ∧
      192 < Main.get_spent_calories (Training.sportsWalking 9000 1 75 180)
        - 157.02 := by
  constructor <;>
    norm_num [Main.get_spent_calories, Main.get_mean_speed, Main.get_distance,
      Main.lenStep, Main.Training.LEN_STEP, Main.Training.M_IN_KM,
      Main.Training.MIN_IN_H, Main.SportsWalking.WEIGHT_MULT_1,
      Main.SportsWalking.WEIGHT_MULT_2, Main.SportsWalking.KMH_IN_MSEC,
      Main.SportsWalking.CM_IN_M, Training.action, Training.duration]

/-- C3 (amended): for activity code WLK with reading [9000, 1, 75, 180],
`read_package` yields the walking record, the computed distance is
exactly 5.85 km, the mean speed is exactly 5.85 km/h, and the calories
burned are exactly 349.251747525 (in exact arithmetic), not 157.02. -/
theorem C3_wlk_values :
    Main.read_package "WLK"
        (PyData.list [PyVal.num 9000, PyVal.num 1, PyVal.num 75, PyVal.num 180])
        = Except.ok (Training.sportsWalking 9000 1 75 180) ∧
      Main.get_distance (Training.sportsWalking 9000 1 75 180) = 5.85 ∧
      Main.get_mean_speed (Training.sportsWalking 9000 1 75 180) = 5.85 ∧
      Main.get_spent_calories (Training.sportsWalking 9000 1 75 180)
        = 349.251747525 := by
  refine ⟨rfl, ?_, ?_, ?_⟩ <;>
    norm_num [Main.get_spent_calories, Main.get_mean_speed, Main.get_distance,
      Main.lenStep, Main.Training.LEN_STEP, Main.Training.M_IN_KM,
      Main.Training.MIN_IN_H, Main.SportsWalking.WEIGHT_MULT_1,
      Main.SportsWalking.WEIGHT_MULT_2, Main.SportsWalking.KMH_IN_MSEC,
      Main.SportsWalking.CM_IN_M, Training.action, Training.duration]

/-- C4: for activity code SWM with reading [720, 1, 80, 25, 40],
`read_package` yields the swimming record, the computed mean speed equals
exactly 1.0 km/h (`25 * 40 / 1000 / 1`), and the calories burned equal
exactly 336.0 (`(1.0 + 1.1) * 2 * 80 * 1`). -/
theorem C4_swm_values :
    Main.read_package "SWM"
        (PyData.list [PyVal.num 720, PyVal.num 1, PyVal.num 80,
          PyVal.num 25, PyVal.num 40])
        = Except.ok (Training.swimming 720 1 80 25 40) ∧
      Main.get_mean_speed (Training.swimming 720 1 80 25 40) = 1 ∧
      Main.get_spent_calories (Training.swimming 720 1 80 25 40) = 336 := by
  refine ⟨rfl, ?_, ?_⟩ <;>
    norm_num [Main.get_spent_calories, Main.get_mean_speed,
      Main.Training.M_IN_KM, Main.Swimming.SPEED_SHIFT, Main.Swimming.SPEED_MULT,
      Training.duration]

/-- C5: for every activity code outside the registry keys
{"RUN", "WLK", "SWM"} and every `data` argument whatsoever (list, tuple
or non-iterable, numeric or not), `read_package` raises
`ExceptionWorkoutTypeError` and nothing else: the code check runs before
`data` is ever touched. -/
theorem C5_unknown_code (code : String) (data : PyData)
    (h : code ∉ (["RUN", "WLK", "SWM"] : List String)) :
    Main.read_package code data = Except.error PyError.unknownActivityType := by
  unfold Main.read_package
  rw [if_pos h]

/-- C5 witness: the unknown code "BIK" with a non-iterable data argument
raises `ExceptionWorkoutTypeError`. -/
theorem C5_witness :
    Main.read_package "BIK" PyData.nonIter
      = Except.error PyError.unknownActivityType :=
  C5_unknown_code "BIK" PyData.nonIter (by decide)

/-- C6 counterexample: for the known code "RUN", a tuple of three numbers
is NOT accepted: `not isinstance(data, list)` is true for a tuple, so
`read_package` raises `ExceptionWorkoutDataError` (`InvalidReading`). -/
theorem C6_counterexample :
    Main.read_package "RUN"
        (PyData.tuple [PyVal.num 1, PyVal.num 2, PyVal.num 3])
      = Except.error PyError.invalidReading := rfl

/-- C6 (amended): for every known activity code and every iterable
reading, `read_package` raises `InvalidReading` exactly when the reading
is not a Python `list` (so a tuple of 3 numbers is rejected, not
accepted), has fewer than 3 elements, or contains a non-numeric element;
a non-iterable reading instead raises a built-in `TypeError` at the
`all(map(...))` check. -/
theorem C6_invalid_reading (code : String) (data : PyData)
    (hc : code ∈ (["RUN", "WLK", "SWM"] : List String))
    (hi : data ≠ PyData.nonIter) :
    Main.read_package code data = Except.error PyError.invalidReading ↔
      (¬ data.isList ∨ data.elems.length < 3
        ∨ ¬ data.elems.all PyVal.isNum) := by
  unfold Main.read_package
  rw [if_neg (not_not_intro hc)]
  cases data with
  | nonIter => exact absurd rfl hi
  | tuple xs => exact iff_of_true rfl (Or.inl (by simp [PyData.isList]))
  | list xs =>
      dsimp only
      by_cases hcond : xs.length < 3 ∨ ¬ xs.all PyVal.isNum
      · rw [if_pos hcond]
        exact iff_of_true rfl (Or.inr hcond)
      · rw [if_neg hcond]
        refine iff_of_false (construct_ne_invalidReading _ _) ?_
        rintro (h1 | h2)
        · exact h1 rfl
        · exact hcond h2

/-- C6 witness: for code "RUN" with the two-element list [1, 2],
`read_package` raises `InvalidReading`, matching the characterisation. -/
theorem C6_witness :
    (Main.read_package "RUN" (PyData.list [PyVal.num 1, PyVal.num 2])
        = Except.error PyError.invalidReading
      ↔ (¬ (PyData.list [PyVal.num 1, PyVal.num 2]).isList
          ∨ (PyData.list [PyVal.num 1, PyVal.num 2]).elems.length < 3
          ∨ ¬ (PyData.list [PyVal.num 1, PyVal.num 2]).elems.all PyVal.isNum)) :=
  C6_invalid_reading "RUN" (PyData.list [PyVal.num 1, PyVal.num 2])
    (by decide) (by decide)

/-- C7 counterexample: for code "RUN" with the list [1, 2, 3, 4] (four
numbers, arity of `Running.__init__` is 3), `read_package` passes all its
boundary checks and fails with a built-in `TypeError` from the
`Running(*data)` call, not with `InvalidReading`. -/
theorem C7_counterexample :
    Main.read_package "RUN"
        (PyData.list [PyVal.num 1, PyVal.num 2, PyVal.num 3, PyVal.num 4])
        = Except.error PyError.pyTypeError ∧
      Main.read_package "RUN"
        (PyData.list [PyVal.num 1, PyVal.num 2, PyVal.num 3, PyVal.num 4])
        ≠ Except.error PyError.invalidReading := by
  refine ⟨rfl, fun h => ?_⟩
  have h2 : (Except.error PyError.pyTypeError : Except PyError Training)
      = Except.error PyError.invalidReading := h
  exact PyError.noConfusion (Except.error.inj h2)

/-- C7 (amended): `read_package` validates only that the reading is a
list of at least 3 numbers; for a known code, a list of 3 or more numbers
whose length does not match the registered class's `__init__` arity
(3 for RUN, 4 for WLK, 5 for SWM) passes the boundary checks and then
raises a built-in `TypeError` from the constructor call, not
`InvalidReading`, so an arity mismatch is not caught at the boundary. -/
theorem C7_arity_mismatch (code : String) (xs : List PyVal)
    (hc : code ∈ (["RUN", "WLK", "SWM"] : List String))
    (hnum : xs.all PyVal.isNum) (hlen : 3 ≤ xs.length)
    (hne : xs.length ≠ expectedArity code) :
    Main.read_package code (PyData.list xs)
      = Except.error PyError.pyTypeError := by
  have hcond : ¬ (xs.length < 3 ∨ ¬ xs.all PyVal.isNum) := by
    push_neg
    exact ⟨by omega, hnum⟩
  unfold Main.read_package
  rw [if_neg (not_not_intro hc)]
  dsimp only
  rw [if_neg hcond]
  fin_cases hc
  · exact construct_run_arity _
      (by simp only [List.length_map]; simpa [expectedArity] using hne)
  · exact construct_wlk_arity _
      (by simp only [List.length_map]; simpa [expectedArity] using hne)
  · exact construct_swm_arity _
      (by simp only [List.length_map]; simpa [expectedArity] using hne)

/-- C7 witness: for code "SWM" with the three-number list [1, 2, 3]
(arity of `Swimming.__init__` is 5), `read_package` fails with a built-in
`TypeError` from the constructor call. -/
theorem C7_witness :
    Main.read_package "SWM"
        (PyData.list [PyVal.num 1, PyVal.num 2, PyVal.num 3])
      = Except.error PyError.pyTypeError :=
  C7_arity_mismatch "SWM" [PyVal.num 1, PyVal.num 2, PyVal.num 3]
    (by decide) (by decide) (by decide) (by decide)

/-- C8: for every workout record all of whose constructor fields are
non-negative and whose duration is nonzero, the computed distance and the
computed mean speed are non-negative, for all three activity types. -/
theorem C8_nonneg (t : Training) (hf : fieldsNonneg t)
    (hd : t.duration ≠ 0) :
    0 ≤ Main.get_distance t ∧ 0 ≤ Main.get_mean_speed t := by
  have hM : (0:ℚ) ≤ Main.Training.M_IN_KM := by
    norm_num [Main.Training.M_IN_KM]
  cases t with
  | running a d w =>
      obtain ⟨ha, hdu, -⟩ := hf
      have h1 : 0 ≤ Main.get_distance (Training.running a d w) :=
        div_nonneg
          (mul_nonneg ha (by norm_num [Main.lenStep, Main.Training.LEN_STEP]))
          hM
      exact ⟨h1, div_nonneg h1 hdu⟩
  | sportsWalking a d w h =>
      obtain ⟨ha, hdu, -, -⟩ := hf
      have h1 : 0 ≤ Main.get_distance (Training.sportsWalking a d w h) :=
        div_nonneg
          (mul_nonneg ha (by norm_num [Main.lenStep, Main.Training.LEN_STEP]))
          hM
      exact ⟨h1, div_nonneg h1 hdu⟩
  | swimming a d w lp cp =>
      obtain ⟨ha, hdu, -, hlp, hcp⟩ := hf
      have h1 : 0 ≤ Main.get_distance (Training.swimming a d w lp cp) :=
        div_nonneg
          (mul_nonneg ha (by norm_num [Main.lenStep, Main.Swimming.LEN_STEP]))
          hM
      exact ⟨h1, div_nonneg (div_nonneg (mul_nonneg hlp hcp) hM) hdu⟩

/-- C8 witness: the running record from reading [15000, 1, 75] has
non-negative fields and nonzero duration, and its distance and mean speed
are non-negative. -/
theorem C8_witness :
    fieldsNonneg (Training.running 15000 1 75) ∧
      (Training.running 15000 1 75).duration ≠ 0 ∧
      0 ≤ Main.get_distance (Training.running 15000 1 75) ∧
      0 ≤ Main.get_mean_speed (Training.running 15000 1 75) := by
  have h1 : fieldsNonneg (Training.running 15000 1 75) :=
    ⟨by norm_num, by norm_num, by norm_num⟩
  have h2 : (Training.running 15000 1 75).duration ≠ 0 := by
    norm_num [Training.duration]
  obtain ⟨h3, h4⟩ := C8_nonneg (Training.running 15000 1 75) h1 h2
  exact ⟨h1, h2, h3, h4⟩

/-- C9: the two implementations in src/main.py and src/homework.py are
extensionally equal: `read_package` returns the same outcome (same record
or same kind of error) on every input, and every constructed record has
the same distance, mean speed, calories, report record (including its
duration) and formatted report string under both implementations. -/
theorem C9_equivalence :
    (∀ (code : String) (data : PyData),
        Main.read_package code data = Homework.read_package code data) ∧
      (∀ t, Main.get_distance t = Homework.get_distance t) ∧
      (∀ t, Main.get_mean_speed t = Homework.get_mean_speed t) ∧
      (∀ t, Main.get_spent_calories t = Homework.get_spent_calories t) ∧
      (∀ t, Main.show_training_info t = Homework.show_training_info t) ∧
      (∀ t, Main.get_message (Main.show_training_info t)
          = Homework.get_message (Homework.show_training_info t)) :=
  ⟨fun _ _ => rfl, fun _ => rfl, fun _ => rfl, fun _ => rfl,
    fun _ => rfl, fun _ => rfl⟩

/-- C10: in the walking calorie formula the squared speed is divided by
`height / 100`, and `read_package` does not validate `height`: for every
walking record with nonzero duration and nonzero height every division in
`get_spent_calories` is defined, while a WLK reading with height 0 passes
`read_package` validation and its evaluation hits an unguarded division
by zero (modelled as `none` of the checked evaluator). -/
theorem C10_walking_division (a d w h : ℚ) :
    (d ≠ 0 → h ≠ 0 →
        (Main.get_spent_caloriesChecked
          (Training.sportsWalking a d w h)).isSome) ∧
      Main.read_package "WLK"
          (PyData.list [PyVal.num a, PyVal.num d, PyVal.num w, PyVal.num 0])
        = Except.ok (Training.sportsWalking a d w 0) ∧
      Main.get_spent_caloriesChecked (Training.sportsWalking a d w 0)
        = none := by
  refine ⟨fun hd hh => ?_, rfl, ?_⟩
  · simp [Main.get_spent_caloriesChecked, Main.get_mean_speedChecked,
      Main.get_distanceChecked, div?, hd, hh, div_eq_zero_iff,
      Main.Training.M_IN_KM, Main.SportsWalking.CM_IN_M,
      Training.duration, Training.action]
  · by_cases hd : d = 0 <;>
      simp [Main.get_spent_caloriesChecked, Main.get_mean_speedChecked,
        Main.get_distanceChecked, div?, hd, Main.Training.M_IN_KM,
        Main.SportsWalking.CM_IN_M, Training.duration, Training.action]

/-- C10 witness: for the walking record from reading [9000, 1, 75, 180]
every division is defined, while the reading [9000, 1, 75, 0] passes
validation and its calorie evaluation divides by zero. -/
theorem C10_witness :
    (Main.get_spent_caloriesChecked
        (Training.sportsWalking 9000 1 75 180)).isSome ∧
      Main.read_package "WLK"
          (PyData.list [PyVal.num 9000, PyVal.num 1, PyVal.num 75,
            PyVal.num 0])
        = Except.ok (Training.sportsWalking 9000 1 75 0) ∧
      Main.get_spent_caloriesChecked (Training.sportsWalking 9000 1 75 0)
        = none :=
  ⟨(C10_walking_division 9000 1 75 180).1 (by norm_num) (by norm_num),
    (C10_walking_division 9000 1 75 180).2.1,
    (C10_walking_division 9000 1 75 180).2.2⟩

end HwPythonOop
